import Mathlib

/-
Verification of the Mu-Theory universal change calculator
(src/time_dilation_visualizer/core/universal_change.py).

The calculator works on Python floats. Every value reachable in the
functions modelled here is either a finite real, +inf, -inf, or NaN, so we
embed float values as an inductive type over exact rationals. The near-zero
guards in the source (|denominator| < tolerance with tolerance = 1e-10)
ensure that no literal division by zero and no inf/inf ever occurs; those
unreachable cases are mapped to NaN below, mirroring IEEE semantics.
-/

/-- Embedded Python float value: a finite rational, an infinity, or NaN. -/
inductive PFloat where
  | fin (q : ℚ)
  | posInf
  | negInf
  | nan
deriving DecidableEq

/-- The fixed numerical tolerance of the calculator (self.tolerance = 1e-10). -/
def tolerance : ℚ := 1 / 10 ^ 10

/-- Python abs on a finite value, written so it evaluates by reduction. -/
def rabs (q : ℚ) : ℚ := if q < 0 then -q else q

/-- Absolute value on embedded floats: abs(+-inf) = +inf, abs(NaN) = NaN. -/
def PFloat.babs : PFloat → PFloat
  | .fin q => .fin (rabs q)
  | .posInf => .posInf
  | .negInf => .posInf
  | .nan => .nan

/-- Strict order on embedded floats; any comparison with NaN is false (IEEE). -/
def PFloat.blt : PFloat → PFloat → Bool
  | .fin a, .fin b => decide (a < b)
  | .fin _, .posInf => true
  | .negInf, .fin _ => true
  | .negInf, .posInf => true
  | _, _ => false

/-- Subtraction on embedded floats; inf - inf (same sign) is NaN. -/
def PFloat.sub : PFloat → PFloat → PFloat
  | .fin a, .fin b => .fin (a - b)
  | .fin _, .posInf => .negInf
  | .fin _, .negInf => .posInf
  | .posInf, .fin _ => .posInf
  | .posInf, .negInf => .posInf
  | .negInf, .fin _ => .negInf
  | .negInf, .posInf => .negInf
  | _, _ => .nan

/-- Division on embedded floats. Division of a finite value by exact zero
raises ZeroDivisionError in Python; it is unreachable here because every
call site guards the denominator magnitude first, and we map it (like the
equally unreachable inf/inf) to NaN. -/
def PFloat.div : PFloat → PFloat → PFloat
  | .fin a, .fin b => if b = 0 then .nan else .fin (a / b)
  | .fin _, .posInf => .fin 0
  | .fin _, .negInf => .fin 0
  | .posInf, .fin b => if b = 0 then .nan else if b < 0 then .negInf else .posInf
  | .negInf, .fin b => if b = 0 then .nan else if b < 0 then .posInf else .negInf
  | _, _ => .nan

/-- Result of one calculator call: the returned value together with the
warnings emitted through warnings.warn during the call. -/
structure CalcResult where
  val : PFloat
  warnings : List String
deriving DecidableEq

/-- calculate_mu_quantum: mu = nu / epsilon, with the near-zero-epsilon
branch returning +inf when nu > 0 and 0.0 otherwise. -/
def calculate_mu_quantum (nu epsilon : ℚ) : CalcResult :=
  if rabs epsilon < tolerance then
    ⟨if nu > 0 then .posInf else .fin 0,
     ["Epsilon approaching zero - quantum uncertainty limit"]⟩
  else
    ⟨.fin (nu / epsilon), []⟩

/-- calculate_mu_state: mu = (psi2 - psi1) / (zeta2 - zeta1), with the same
near-zero policy applied to the zeta difference. -/
def calculate_mu_state (psi1 psi2 zeta1 zeta2 : ℚ) : CalcResult :=
  let delta_psi := psi2 - psi1
  let delta_zeta := zeta2 - zeta1
  if rabs delta_zeta < tolerance then
    ⟨if delta_psi > 0 then .posInf else .fin 0,
     ["Delta zeta approaching zero - state change singularity"]⟩
  else
    ⟨.fin (delta_psi / delta_zeta), []⟩

/-- calculate_mu_thermodynamic: mu = (delta_s / t) / chi; chi is guarded
first (near-zero chi always gives +inf), then t (near-zero t gives +inf when
delta_s is nonzero, else 0.0). -/
def calculate_mu_thermodynamic (delta_s t chi : ℚ) : CalcResult :=
  if rabs chi < tolerance then
    ⟨.posInf, ["Chi approaching zero - no resistance to change"]⟩
  else if rabs t < tolerance then
    ⟨if delta_s ≠ 0 then .posInf else .fin 0,
     ["Time approaching zero - instantaneous change"]⟩
  else
    ⟨.fin ((delta_s / t) / chi), []⟩

/-- calculate_mu_gravitational: mu = rho / chi; near-zero chi gives +inf. -/
def calculate_mu_gravitational (rho chi : ℚ) : CalcResult :=
  if rabs chi < tolerance then
    ⟨.posInf, ["Chi approaching zero - gravitational singularity"]⟩
  else
    ⟨.fin (rho / chi), []⟩

/-- calculate_tau_from_mu: tau = 1.0 / mu; near-zero mu gives +inf. The
input can itself be an infinity produced by another calculator call. -/
def calculate_tau_from_mu (mu : PFloat) : CalcResult :=
  if mu.babs.blt (.fin tolerance) then
    ⟨.posInf, ["Mu approaching zero - time dilation approaching infinity"]⟩
  else
    ⟨PFloat.div (.fin 1) mu, []⟩

/-- calculate_mu_from_tau: mu = 1.0 / tau; near-zero tau gives +inf. -/
def calculate_mu_from_tau (tau : PFloat) : CalcResult :=
  if tau.babs.blt (.fin tolerance) then
    ⟨.posInf, ["Tau approaching zero - change flow approaching infinity"]⟩
  else
    ⟨PFloat.div (.fin 1) tau, []⟩

/-- The keyword parameters accepted by simulate_scenario (**params); a
field is none when the caller did not pass that keyword. -/
structure ScenarioParams where
  chi : Option ℚ
  rho : Option ℚ
  epsilon : Option ℚ
  nu : Option ℚ
  psi_range : Option (ℚ × ℚ)
  zeta_range : Option (ℚ × ℚ)
  delta_s : Option ℚ
  t : Option ℚ
deriving DecidableEq

/-- No keyword parameters passed. -/
def noParams : ScenarioParams := ⟨none, none, none, none, none, none, none, none⟩

/-- The results dictionary built by simulate_scenario: the scenario name,
the echoed parameters, and the mu/tau/analysis entries added by the branch
that fired (none when no branch matched the name). -/
structure ScenarioResult where
  scenario : String
  parameters : ScenarioParams
  mu : Option PFloat
  tau : Option PFloat
  analysis : Option String
deriving DecidableEq

/-- The error channel for simulate_scenario; a raised exception would be
modelled as Except.error. The source body raises nothing. -/
inductive SimError where
  | unknownScenario
deriving DecidableEq

instance decEqExcept {ε α : Type} [DecidableEq ε] [DecidableEq α] :
    DecidableEq (Except ε α)
  | .ok x, .ok y => decidable_of_iff (x = y) (by simp)
  | .error x, .error y => decidable_of_iff (x = y) (by simp)
  | .ok _, .error _ => isFalse (fun h => Except.noConfusion h)
  | .error _, .ok _ => isFalse (fun h => Except.noConfusion h)

/-- simulate_scenario: dispatches on the scenario name over the four preset
branches, applying the per-branch parameter defaults from the source; when
no branch matches it falls through and returns the initial results
dictionary unchanged (no exception is raised anywhere in the body). -/
def simulate_scenario (scenario : String) (params : ScenarioParams) :
    Except SimError ScenarioResult :=
  if scenario = "black_hole" then
    let chi := params.chi.getD (10 ^ 6)
    let rho := params.rho.getD (10 ^ 3)
    let mu := (calculate_mu_gravitational rho chi).val
    let tau := (calculate_tau_from_mu mu).val
    .ok ⟨scenario, params, some mu, some tau, some "Time stops at singularity"⟩
  else if scenario = "light_speed" then
    let epsilon := params.epsilon.getD (1 / 10 ^ 10)
    let nu := params.nu.getD 1
    let mu := (calculate_mu_quantum nu epsilon).val
    let tau := (calculate_tau_from_mu mu).val
    .ok ⟨scenario, params, some mu, some tau, some "Light experiences no time"⟩
  else if scenario = "quantum_vacuum" then
    let pr := params.psi_range.getD (0, 1)
    let zr := params.zeta_range.getD (0, 1 / 10)
    let mu := (calculate_mu_state pr.1 pr.2 zr.1 zr.2).val
    let tau := (calculate_tau_from_mu mu).val
    .ok ⟨scenario, params, some mu, some tau, some "Vacuum fluctuation dynamics"⟩
  else if scenario = "universe_expansion" then
    let delta_s := params.delta_s.getD (10 ^ 23)
    let t := params.t.getD (10 ^ 17)
    let chi := params.chi.getD (10 ^ 6)
    let mu := (calculate_mu_thermodynamic delta_s t chi).val
    let tau := (calculate_tau_from_mu mu).val
    .ok ⟨scenario, params, some mu, some tau, some "Cosmic expansion dynamics"⟩
  else
    .ok ⟨scenario, params, none, none, none⟩

/-- The PhysicsParameters dataclass: every field independently optional. -/
structure PhysicsParameters where
  nu : Option ℚ
  epsilon : Option ℚ
  psi : Option ℚ
  zeta : Option ℚ
  delta_s : Option ℚ
  t : Option ℚ
  chi : Option ℚ
  rho : Option ℚ
  mu : Option ℚ
  tau : Option ℚ
deriving DecidableEq

/-- The epsilon check of validate_parameters. -/
def epsilonCheck (p : PhysicsParameters) : List String :=
  match p.epsilon with
  | some x => if x < 0 then ["Epsilon (perturbation) should be positive"] else []
  | none => []

/-- The chi check of validate_parameters. -/
def chiCheck (p : PhysicsParameters) : List String :=
  match p.chi with
  | some x => if x ≤ 0 then ["Chi (resistance to change) must be positive"] else []
  | none => []

/-- The time check of validate_parameters. -/
def timeCheck (p : PhysicsParameters) : List String :=
  match p.t with
  | some x => if x ≤ 0 then ["Time must be positive"] else []
  | none => []

/-- The rho check of validate_parameters. -/
def rhoCheck (p : PhysicsParameters) : List String :=
  match p.rho with
  | some x => if x < 0 then ["Energy density (rho) should be non-negative"] else []
  | none => []

/-- The mu/tau consistency check of validate_parameters: when both are set,
expected_tau = 1/mu (or +inf when mu = 0) and a violation is recorded when
abs(tau - expected_tau) > tolerance. -/
def muTauCheck (p : PhysicsParameters) : List String :=
  match p.mu, p.tau with
  | some m, some ta =>
    let expected_tau : PFloat := if m ≠ 0 then .fin (1 / m) else .posInf
    if PFloat.blt (.fin tolerance) ((PFloat.sub (.fin ta) expected_tau).babs) then
      ["Mu and tau are inconsistent (tau is not 1/mu)"]
    else []
  | _, _ => []

/-- validate_parameters: appends, in source order, the violation message of
each check whose invariant is broken, and reports validity as emptiness of
the accumulated list. -/
def validate_parameters (p : PhysicsParameters) : Bool × List String :=
  let errors :=
    epsilonCheck p ++ chiCheck p ++ timeCheck p ++ rhoCheck p ++ muTauCheck p
  (errors.length == 0, errors)

/-- Composition mu_from_tau(tau_from_mu(mu)) on a finite input mu. -/
def muRoundTrip (mu : ℚ) : PFloat :=
  (calculate_mu_from_tau (calculate_tau_from_mu (.fin mu)).val).val

/-- The mu entry of the dictionary returned by simulate_scenario. -/
def scenarioMu (s : String) (p : ScenarioParams) : Option PFloat :=
  match simulate_scenario s p with
  | .ok r => r.mu
  | .error _ => none

/-- The keyword arguments chi=1e6, rho=1e3 of the black_hole sanity check. -/
def bhParams : ScenarioParams :=
  ⟨some (10 ^ 6), some (10 ^ 3), none, none, none, none, none, none⟩

/-- The keyword arguments epsilon=1e-10, nu=1.0 of the light_speed sanity check. -/
def lsParams : ScenarioParams :=
  ⟨none, none, some (1 / 10 ^ 10), some 1, none, none, none, none⟩

/-- A PhysicsParameters record with chi = -1 and t = -1, all other fields absent. -/
def chiTParams : PhysicsParameters :=
  ⟨none, none, none, none, none, some (-1), some (-1), none, none, none⟩

/-- The reduction-friendly rabs agrees with the mathematical absolute value. -/
theorem rabs_eq_abs (q : ℚ) : rabs q = |q| := by
  unfold rabs
  split
  · exact (abs_of_neg (by assumption)).symm
  · exact (abs_of_nonneg (not_lt.mp (by assumption))).symm

/-- C1 (amended): for every scenario name outside the four fixed presets
(black_hole, light_speed, quantum_vacuum, universe_expansion),
simulate_scenario signals no error: it falls through every branch and
returns the initial results dictionary, echoing the name and the
parameters, with no mu, no tau and no analysis entry (no numeric result). -/
theorem c1_unknown_scenario (s : String) (p : ScenarioParams)
    (h1 : s ≠ "black_hole") (h2 : s ≠ "light_speed")
    (h3 : s ≠ "quantum_vacuum") (h4 : s ≠ "universe_expansion") :
    simulate_scenario s p = .ok ⟨s, p, none, none, none⟩ := by
  unfold simulate_scenario
  rw [if_neg h1, if_neg h2, if_neg h3, if_neg h4]

/-- Witness for C1 at the concrete unknown name used by the spec. -/
theorem c1_unknown_scenario_witness :
    simulate_scenario "not_a_scenario" noParams =
      .ok ⟨"not_a_scenario", noParams, none, none, none⟩ :=
  c1_unknown_scenario "not_a_scenario" noParams
    (by decide) (by decide) (by decide) (by decide)

/-- C1 counterexample: at the spec's own example input, the call does not
signal UnknownScenario: it returns successfully, so the claimed fatal error
never happens. -/
theorem c1_counterexample :
    simulate_scenario "not_a_scenario" noParams ≠
      Except.error SimError.unknownScenario := by
  decide

/-- C2 (amended): for every mu with tolerance < mu and mu at most 1e10
(so that tau = 1/mu does not itself fall below tolerance), the round trip
mu_from_tau(tau_from_mu(mu)) returns mu exactly, hence within 1e-10. -/
theorem c2_round_trip (mu : ℚ) (h1 : tolerance < mu) (h2 : mu ≤ 10 ^ 10) :
    muRoundTrip mu = .fin mu := by
  have htol : (0:ℚ) < tolerance := by norm_num [tolerance]
  have hmupos : (0:ℚ) < mu := htol.trans h1
  have hrabs : rabs mu = mu := by
    unfold rabs
    rw [if_neg (not_lt.mpr hmupos.le)]
  have hinv_pos : (0:ℚ) < 1 / mu := by positivity
  have hinv_ge : tolerance ≤ 1 / mu := by
    calc tolerance = 1 / 10 ^ 10 := rfl
    _ ≤ 1 / mu := one_div_le_one_div_of_le hmupos h2
  have hrabs2 : rabs (1 / mu) = 1 / mu := by
    unfold rabs
    rw [if_neg (not_lt.mpr hinv_pos.le)]
  have step1 : (calculate_tau_from_mu (.fin mu)).val = .fin (1 / mu) := by
    unfold calculate_tau_from_mu
    simp only [PFloat.babs, PFloat.blt, hrabs, decide_eq_true_eq]
    rw [if_neg (not_lt.mpr h1.le)]
    simp only [PFloat.div]
    rw [if_neg hmupos.ne.symm]
  unfold muRoundTrip
  rw [step1]
  unfold calculate_mu_from_tau
  simp only [PFloat.babs, PFloat.blt, hrabs2, decide_eq_true_eq]
  rw [if_neg (not_lt.mpr hinv_ge)]
  simp only [PFloat.div]
  rw [if_neg (ne_of_gt hinv_pos), one_div_one_div]

/-- Witness for C2 at mu = 2. -/
theorem c2_round_trip_witness : muRoundTrip 2 = .fin 2 :=
  c2_round_trip 2 (by norm_num [tolerance]) (by norm_num)

/-- C2 counterexample: mu = 1e11 is above tolerance, yet the round trip
returns +inf, which is not within 1e-10 of 1e11 (and not equal to it):
tau_from_mu gives 1e-11, whose magnitude is below tolerance, so
mu_from_tau takes its near-zero branch. -/
theorem c2_counterexample :
    tolerance < (10 ^ 11 : ℚ) ∧
    muRoundTrip (10 ^ 11) = PFloat.posInf ∧
    PFloat.blt ((PFloat.sub (muRoundTrip (10 ^ 11)) (.fin (10 ^ 11))).babs)
      (.fin tolerance) = false := by
  have h : muRoundTrip (10 ^ 11) = PFloat.posInf := by
    norm_num [muRoundTrip, calculate_tau_from_mu, calculate_mu_from_tau,
      PFloat.babs, PFloat.blt, PFloat.div, rabs, tolerance]
  refine ⟨by norm_num [tolerance], h, ?_⟩
  rw [h]
  rfl

/-- C3: the claim (and the repo test test_numerical_stability) requires
mu_gravitational(1e-100, 1e-94) to be finite, but the code takes the
near-zero-chi branch (|1e-94| < tolerance = 1e-10) and returns +inf; the
large-scale input does return the finite value 1e6. -/
theorem c3_stability_evaluation :
    (calculate_mu_gravitational (1 / 10 ^ 100) (1 / 10 ^ 94)).val = PFloat.posInf ∧
    (calculate_mu_gravitational (10 ^ 100) (10 ^ 94)).val = .fin (10 ^ 6) := by
  constructor
  · norm_num [calculate_mu_gravitational, rabs, tolerance]
  · norm_num [calculate_mu_gravitational, rabs, tolerance]

/-- C4: mu_thermodynamic returns (delta_s/t)/chi when both denominator
magnitudes are at least tolerance; chi is checked first, so near-zero chi
gives +inf regardless of delta_s (also when t is degenerate too), and with
chi non-degenerate a near-zero t gives +inf when delta_s is nonzero and 0.0
when delta_s is zero. -/
theorem c4_mu_thermodynamic (delta_s t chi : ℚ) :
    (tolerance ≤ |chi| → tolerance ≤ |t| →
      calculate_mu_thermodynamic delta_s t chi = ⟨.fin ((delta_s / t) / chi), []⟩) ∧
    (|chi| < tolerance →
      calculate_mu_thermodynamic delta_s t chi =
        ⟨.posInf, ["Chi approaching zero - no resistance to change"]⟩) ∧
    (tolerance ≤ |chi| → |t| < tolerance →
      calculate_mu_thermodynamic delta_s t chi =
        ⟨if delta_s ≠ 0 then .posInf else .fin 0,
         ["Time approaching zero - instantaneous change"]⟩) := by
  refine ⟨?_, ?_, ?_⟩
  · intro hchi ht
    unfold calculate_mu_thermodynamic
    rw [rabs_eq_abs, rabs_eq_abs, if_neg (not_lt.mpr hchi), if_neg (not_lt.mpr ht)]
  · intro hchi
    unfold calculate_mu_thermodynamic
    rw [rabs_eq_abs, if_pos hchi]
  · intro hchi ht
    unfold calculate_mu_thermodynamic
    rw [rabs_eq_abs, rabs_eq_abs, if_neg (not_lt.mpr hchi), if_pos ht]

/-- Witness for C4: one instance per branch. -/
theorem c4_witness :
    calculate_mu_thermodynamic 100 10 5 = ⟨.fin ((100 / 10) / 5), []⟩ ∧
    calculate_mu_thermodynamic 7 3 0 =
      ⟨.posInf, ["Chi approaching zero - no resistance to change"]⟩ ∧
    calculate_mu_thermodynamic 7 0 5 =
      ⟨if (7:ℚ) ≠ 0 then .posInf else .fin 0,
       ["Time approaching zero - instantaneous change"]⟩ :=
  ⟨(c4_mu_thermodynamic 100 10 5).1 (by norm_num [tolerance]) (by norm_num [tolerance]),
   (c4_mu_thermodynamic 7 3 0).2.1 (by norm_num [tolerance]),
   (c4_mu_thermodynamic 7 0 5).2.2 (by norm_num [tolerance]) (by norm_num [tolerance])⟩

/-- C5: validate_parameters checks each present soft invariant and the
mu/tau consistency invariant independently, reporting every violation;
validity holds exactly when the violation list is empty; and the record
with chi = -1 and t = -1 yields invalid with the two distinct messages of
the two broken invariants. -/
theorem c5_validate (p : PhysicsParameters) :
    ((validate_parameters p).1 = true ↔ (validate_parameters p).2 = []) ∧
    (∀ x, p.epsilon = some x → x < 0 →
      "Epsilon (perturbation) should be positive" ∈ (validate_parameters p).2) ∧
    (∀ x, p.chi = some x → x ≤ 0 →
      "Chi (resistance to change) must be positive" ∈ (validate_parameters p).2) ∧
    (∀ x, p.t = some x → x ≤ 0 →
      "Time must be positive" ∈ (validate_parameters p).2) ∧
    (∀ x, p.rho = some x → x < 0 →
      "Energy density (rho) should be non-negative" ∈ (validate_parameters p).2) ∧
    (∀ m ta, p.mu = some m → p.tau = some ta →
      PFloat.blt (.fin tolerance)
        ((PFloat.sub (.fin ta) (if m ≠ 0 then .fin (1 / m) else .posInf)).babs) = true →
      "Mu and tau are inconsistent (tau is not 1/mu)" ∈ (validate_parameters p).2) ∧
    (validate_parameters chiTParams =
      (false, ["Chi (resistance to change) must be positive", "Time must be positive"])) ∧
    ("Chi (resistance to change) must be positive" ≠ "Time must be positive") := by
  refine ⟨?_, ?_, ?_, ?_, ?_, ?_, ?_, by decide⟩
  · unfold validate_parameters
    simp [List.length_eq_zero]
  · intro x hx hneg
    simp [validate_parameters, epsilonCheck, hx, hneg]
  · intro x hx hneg
    simp [validate_parameters, chiCheck, hx, hneg]
  · intro x hx hneg
    simp [validate_parameters, timeCheck, hx, hneg]
  · intro x hx hneg
    simp [validate_parameters, rhoCheck, hx, hneg]
  · intro m ta hm hta hcond
    simp only [ne_eq, ite_not, one_div] at hcond
    simp [validate_parameters, muTauCheck, hm, hta, hcond]
  · norm_num [validate_parameters, chiTParams, epsilonCheck, chiCheck,
      timeCheck, rhoCheck, muTauCheck]

/-- Witness for C5 at the chi = -1, t = -1 record. -/
theorem c5_witness :
    "Chi (resistance to change) must be positive" ∈ (validate_parameters chiTParams).2 ∧
    "Time must be positive" ∈ (validate_parameters chiTParams).2 :=
  ⟨(c5_validate chiTParams).2.2.1 (-1) rfl (by norm_num),
   (c5_validate chiTParams).2.2.2.1 (-1) rfl (by norm_num)⟩

/-- C6: mu_quantum returns nu/epsilon for non-degenerate epsilon; a
near-zero epsilon emits the warning and yields +inf when nu > 0 and 0.0
otherwise; in particular mu_quantum(1, 0) is +inf with the warning raised
and mu_quantum(0, 0) is 0.0. -/
theorem c6_mu_quantum (nu epsilon : ℚ) :
    (|epsilon| < tolerance →
      calculate_mu_quantum nu epsilon =
        ⟨if nu > 0 then .posInf else .fin 0,
         ["Epsilon approaching zero - quantum uncertainty limit"]⟩) ∧
    (tolerance ≤ |epsilon| →
      calculate_mu_quantum nu epsilon = ⟨.fin (nu / epsilon), []⟩) ∧
    calculate_mu_quantum 1 0 =
      ⟨.posInf, ["Epsilon approaching zero - quantum uncertainty limit"]⟩ ∧
    calculate_mu_quantum 0 0 =
      ⟨.fin 0, ["Epsilon approaching zero - quantum uncertainty limit"]⟩ := by
  refine ⟨?_, ?_, ?_, ?_⟩
  · intro h
    unfold calculate_mu_quantum
    rw [rabs_eq_abs, if_pos h]
  · intro h
    unfold calculate_mu_quantum
    rw [rabs_eq_abs, if_neg (not_lt.mpr h)]
  · norm_num [calculate_mu_quantum, rabs, tolerance]
  · norm_num [calculate_mu_quantum, rabs, tolerance]

/-- Witness for C6: a division instance and the degenerate instance. -/
theorem c6_witness :
    calculate_mu_quantum 3 2 = ⟨.fin (3 / 2), []⟩ ∧
    calculate_mu_quantum 5 0 =
      ⟨if (5:ℚ) > 0 then .posInf else .fin 0,
       ["Epsilon approaching zero - quantum uncertainty limit"]⟩ :=
  ⟨(c6_mu_quantum 3 2).2.1 (by norm_num [tolerance]),
   (c6_mu_quantum 5 0).1 (by norm_num [tolerance])⟩

/-- C7: run_scenario(black_hole, chi=1e6, rho=1e3) yields mu = 1e-3 < 1,
and run_scenario(light_speed, epsilon=1e-10, nu=1.0) yields mu = 1e10 > 1;
epsilon = 1e-10 sits exactly at the tolerance boundary, so the strict
near-zero test does not fire and the division branch is taken. -/
theorem c7_scenario_sanity :
    scenarioMu "black_hole" bhParams = some (.fin (1 / 1000)) ∧
    PFloat.blt (.fin (1 / 1000)) (.fin 1) = true ∧
    scenarioMu "light_speed" lsParams = some (.fin (10 ^ 10)) ∧
    PFloat.blt (.fin 1) (.fin (10 ^ 10)) = true := by
  refine ⟨?_, by norm_num [PFloat.blt], ?_, by norm_num [PFloat.blt]⟩
  · have h : simulate_scenario "black_hole" bhParams =
        .ok ⟨"black_hole", bhParams,
             some (calculate_mu_gravitational (10 ^ 3) (10 ^ 6)).val,
             some (calculate_tau_from_mu
               (calculate_mu_gravitational (10 ^ 3) (10 ^ 6)).val).val,
             some "Time stops at singularity"⟩ := by
      unfold simulate_scenario
      rw [if_pos rfl]
      rfl
    unfold scenarioMu
    rw [h]
    norm_num [calculate_mu_gravitational, rabs, tolerance]
  · have h : simulate_scenario "light_speed" lsParams =
        .ok ⟨"light_speed", lsParams,
             some (calculate_mu_quantum 1 (1 / 10 ^ 10)).val,
             some (calculate_tau_from_mu
               (calculate_mu_quantum 1 (1 / 10 ^ 10)).val).val,
             some "Light experiences no time"⟩ := by
      unfold simulate_scenario
      rw [if_neg (by decide), if_pos rfl]
      rfl
    unfold scenarioMu
    rw [h]
    norm_num [calculate_mu_quantum, rabs, tolerance]

/-- C8: for every rho, and every chi of magnitude at least tolerance,
mu_gravitational is exactly rho/chi with no warning; at rho = chi = 1e10
the result is exactly 1 and the derived tau is exactly 1. -/
theorem c8_formulation_equivalence (rho chi : ℚ) (h : tolerance ≤ |chi|) :
    calculate_mu_gravitational rho chi = ⟨.fin (rho / chi), []⟩ ∧
    (calculate_mu_gravitational (10 ^ 10) (10 ^ 10)).val = .fin 1 ∧
    (calculate_tau_from_mu
      (calculate_mu_gravitational (10 ^ 10) (10 ^ 10)).val).val = .fin 1 := by
  refine ⟨?_, ?_, ?_⟩
  · unfold calculate_mu_gravitational
    rw [rabs_eq_abs, if_neg (not_lt.mpr h)]
  · norm_num [calculate_mu_gravitational, rabs, tolerance]
  · norm_num [calculate_mu_gravitational, calculate_tau_from_mu,
      PFloat.babs, PFloat.blt, PFloat.div, rabs, tolerance]

/-- Witness for C8 at rho = 6, chi = 3. -/
theorem c8_witness : calculate_mu_gravitational 6 3 = ⟨.fin (6 / 3), []⟩ :=
  (c8_formulation_equivalence 6 3 (by norm_num [tolerance])).1

/-- C9: for every rho, including zero and negative values, a chi of
magnitude below tolerance makes mu_gravitational return +inf together with
the near-zero-denominator warning. -/
theorem c9_degenerate_chi (rho chi : ℚ) (h : |chi| < tolerance) :
    calculate_mu_gravitational rho chi =
      ⟨.posInf, ["Chi approaching zero - gravitational singularity"]⟩ := by
  unfold calculate_mu_gravitational
  rw [rabs_eq_abs, if_pos h]

/-- Witness for C9 at (1, 0) and at a negative rho. -/
theorem c9_witness :
    calculate_mu_gravitational 1 0 =
      ⟨.posInf, ["Chi approaching zero - gravitational singularity"]⟩ ∧
    calculate_mu_gravitational (-5) 0 =
      ⟨.posInf, ["Chi approaching zero - gravitational singularity"]⟩ :=
  ⟨c9_degenerate_chi 1 0 (by norm_num [tolerance]),
   c9_degenerate_chi (-5) 0 (by norm_num [tolerance])⟩

/-- C10: tau_from_mu and mu_from_tau test only the magnitude of a finite
input: every x with 0 < |x| < tolerance, negative x included, yields +inf
(the sign is discarded), while every x with |x| at least tolerance yields
1/x, which is negative when x is negative. -/
theorem c10_sign_discontinuity (x : ℚ) :
    (0 < |x| → |x| < tolerance →
      (calculate_tau_from_mu (.fin x)).val = .posInf ∧
      (calculate_mu_from_tau (.fin x)).val = .posInf) ∧
    (tolerance ≤ |x| →
      (calculate_tau_from_mu (.fin x)).val = .fin (1 / x) ∧
      (calculate_mu_from_tau (.fin x)).val = .fin (1 / x) ∧
      (x < 0 → 1 / x < 0)) := by
  constructor
  · intro _ hlt
    unfold calculate_tau_from_mu calculate_mu_from_tau
    simp only [PFloat.babs, PFloat.blt, rabs_eq_abs, decide_eq_true_eq]
    rw [if_pos hlt, if_pos hlt]
    exact ⟨rfl, rfl⟩
  · intro hge
    have hx0 : x ≠ 0 := by
      intro h
      rw [h] at hge
      norm_num [tolerance] at hge
    unfold calculate_tau_from_mu calculate_mu_from_tau
    simp only [PFloat.babs, PFloat.blt, rabs_eq_abs, decide_eq_true_eq]
    rw [if_neg (not_lt.mpr hge), if_neg (not_lt.mpr hge)]
    simp only [PFloat.div]
    rw [if_neg hx0]
    exact ⟨rfl, rfl, fun hneg => one_div_neg.mpr hneg⟩

/-- Witness for C10 at the negative near-zero input -1e-11 and at -2. -/
theorem c10_witness :
    (calculate_tau_from_mu (.fin (-(1 / 10 ^ 11)))).val = .posInf ∧
    (calculate_mu_from_tau (.fin (-(1 / 10 ^ 11)))).val = .posInf ∧
    (calculate_tau_from_mu (.fin (-2))).val = .fin (1 / (-2)) ∧
    (1 / (-2) : ℚ) < 0 := by
  have h1 := (c10_sign_discontinuity (-(1 / 10 ^ 11))).1
    (by norm_num)
    (by rw [abs_neg, abs_of_pos (by norm_num : (0:ℚ) < 1 / 10 ^ 11)]; norm_num [tolerance])
  have h2 := (c10_sign_discontinuity (-2)).2 (by norm_num [tolerance])
  exact ⟨h1.1, h1.2, h2.1, h2.2.2 (by norm_num)⟩
